import Mathlib

/-!
Verification of the boot-script decision and rendering pipeline of
src/ipxe/auto.go (package ipxe of the boots repository).

The Go handler is shallowly embedded as pure Lean functions.  The Go
standard-library calls the handler makes (net.SplitHostPort, net.ParseIP,
net.IP.String, net/url.Parse) are external to the repository and are
modelled as abstract function parameters collected in the GoStd structure;
theorems quantify over them or hypothesise the exact success/failure shape
the claim speaks about.  The hardware-inventory adapter (client.Discoverer,
defined outside src/) is consumed by auto.go purely through its query
surface, and is modelled as a structure of query functions, exactly the
surface auto.go calls.  The template renderer (GenerateTemplate, HookScript,
CustomScript, also outside src/) is modelled from the spec where noted.
-/

namespace Boots

/-- A MAC identity (Go net.HardwareAddr), modelled by its canonical
string form, which is all auto.go ever extracts from it (mac.String()). -/
structure MAC where
  str : String
deriving DecidableEq, Repr

/-- A parsed URL as returned by Go net/url.Parse: the scheme plus the
textual form u.String().  Other url.URL fields are not read by auto.go. -/
structure GoURL where
  scheme : String
  str : String
deriving DecidableEq, Repr

/-- The workload instance reference (client.Instance): auto.go reads only
its ID field. -/
structure Instance where
  id : String
deriving DecidableEq, Repr

/-- The query surface of client.Discoverer / client.Hardware that auto.go
consumes.  Go net.IP values may be nil (net.ParseIP returns nil on failure),
so the IP argument of getMAC is Option String, none modelling a nil IP.
Field correspondence: getMAC = GetMAC, allowPXE = Hardware().HardwareAllowPXE,
hardwareArch = Hardware().HardwareArch, facilityCode =
Hardware().HardwareFacilityCode, vlanID = Hardware().GetVLANID,
ipxeURL = Hardware().IPXEURL, ipxeScript = Hardware().IPXEScript,
inst = Instance(). -/
structure Discoverer where
  getMAC : Option String → MAC
  allowPXE : MAC → Bool
  hardwareArch : MAC → String
  facilityCode : String
  vlanID : MAC → String
  ipxeURL : MAC → String
  ipxeScript : MAC → String
  inst : Option Instance

/-- The Go standard-library functions auto.go calls, modelled abstractly
(they are not repository code).  splitHostPort = net.SplitHostPort
(host and port on success), parseIP = net.ParseIP (none models the nil
return on failure), ipString = net.IP.String (applied to a possibly-nil
IP), urlParse = net/url.Parse. -/
structure GoStd where
  splitHostPort : String → Except String (String × String)
  parseIP : String → Option String
  ipString : Option String → String
  urlParse : String → Except String GoURL

/-- The Handler configuration struct of auto.go. -/
structure Handler where
  osieURL : String
  extraKernelParams : List String
  publicSyslogFQDN : String
  tinkServerTLS : Bool
  tinkServerGRPCAddr : String
deriving DecidableEq, Repr

/-- The Hook template context (the Boot Decision Context) built by
Handler.defaultScript.  Field names follow the Go struct. -/
structure Hook where
  arch : String
  console : String
  downloadURL : String
  extraKernelParams : List String
  facility : String
  hwAddr : String
  syslogHost : String
  tinkerbellTLS : Bool
  tinkGRPCAuthority : String
  vlanID : String
  workerID : String
  traceID : String
deriving DecidableEq, Repr

/-- The Custom template context of auto.go: Custom{Chain: u} or
Custom{Script: s}; the unset field keeps its Go zero value. -/
structure Custom where
  chain : Option GoURL
  script : String
deriving DecidableEq, Repr

/-- The incoming HTTP request, restricted to the two fields auto.go reads:
r.URL.Path and r.RemoteAddr. -/
structure Request where
  urlPath : String
  remoteAddr : String
deriving DecidableEq, Repr

/-- The observable outcome of one request: HTTP 200 with the written script
body, HTTP 404, or HTTP 500 (failure responses carry no script text). -/
inductive Response where
  | ok (body : String)
  | notFound
  | internalError
deriving DecidableEq, Repr

/-- The result of HandlerFunc on one request, together with whether the
hardware lookup (Finder.ByIP) was invoked and whether the metrics counters
(JobsTotal / JobsInProgress / JobDuration) were touched. -/
structure HandlerResult where
  response : Response
  lookupPerformed : Bool
  metricsRecorded : Bool
deriving DecidableEq, Repr

/-- Go path.Base: strip trailing slashes, then keep everything after the
last slash; empty input gives ".", an all-slash input gives "/". -/
def pathBase (p : String) : String :=
  if p = "" then "."
  else
    let stripped := (p.toList.reverse.dropWhile (fun c => c = '/')).reverse
    if stripped = [] then "/"
    else String.mk ((stripped.reverse.takeWhile (fun c => c ≠ '/')).reverse)

/-- Modelled from the spec: GenerateTemplate applied to the fixed default
(HookScript) template, which is not under src/.  Per the spec the renderer
deterministically substitutes the context fields into a fixed text; a
render error is a structural mismatch between template and context type,
impossible for the fixed Hook template with its matching Hook context, so
the result is always ok. -/
def generateHookTemplate (a : Hook) : Except String String :=
  .ok (String.intercalate "\n"
    [ "#!ipxe"
    , "arch=" ++ a.arch
    , "console=" ++ a.console
    , "download_url=" ++ a.downloadURL
    , "extra_kernel_params=" ++ String.intercalate " " a.extraKernelParams
    , "facility=" ++ a.facility
    , "hw_addr=" ++ a.hwAddr
    , "syslog_host=" ++ a.syslogHost
    , "tinkerbell_tls=" ++ (if a.tinkerbellTLS then "true" else "false")
    , "tink_grpc_authority=" ++ a.tinkGRPCAuthority
    , "vlan_id=" ++ a.vlanID
    , "worker_id=" ++ a.workerID
    , "trace_id=" ++ a.traceID ])

/-- Modelled from the spec: GenerateTemplate applied to the fixed custom
(CustomScript) template, which is not under src/.  Per the spec, a chain
URL renders to a script embedding that exact URL, and a literal script
body is rendered verbatim. -/
def generateCustomTemplate (c : Custom) : Except String String :=
  match c.chain with
  | some u => .ok ("#!ipxe\nchain --autofree " ++ u.str)
  | none => .ok c.script

/-- customScriptFound of auto.go: true when the hardware data defines a
non-empty custom chain URL or a non-empty custom script for the MAC
resolved from the (re-parsed) client IP; false for a nil Discoverer. -/
def customScriptFound (std : GoStd) (hw : Option Discoverer) (ip : String) : Bool :=
  match hw with
  | none => false
  | some hw =>
    let mac := hw.getMAC (std.parseIP ip)
    decide (hw.ipxeURL mac ≠ "" ∨ hw.ipxeScript mac ≠ "")

/-- The Hook context assembled inside Handler.defaultScript (lines 138-164
of auto.go): architecture defaulted to x86_64 when empty, worker ID from
the instance when it has a non-empty ID else the MAC string, trace ID set
only when the span is sampled. -/
def autoHook (h : Handler) (std : GoStd) (sampled : Bool) (spanTraceID : String)
    (hw : Discoverer) (ip : String) : Hook :=
  let mac := hw.getMAC (std.parseIP ip)
  let arch := if hw.hardwareArch mac = "" then "x86_64" else hw.hardwareArch mac
  let wID :=
    match hw.inst with
    | some i => if i.id ≠ "" then i.id else mac.str
    | none => mac.str
  { arch := arch
    console := ""
    downloadURL := h.osieURL
    extraKernelParams := h.extraKernelParams
    facility := hw.facilityCode
    hwAddr := mac.str
    syslogHost := h.publicSyslogFQDN
    tinkerbellTLS := h.tinkServerTLS
    tinkGRPCAuthority := h.tinkServerGRPCAddr
    vlanID := hw.vlanID mac
    workerID := wID
    traceID := if sampled then spanTraceID else "" }

/-- Handler.defaultScript of auto.go: render the Hook context against the
default template. -/
def defaultScript (h : Handler) (std : GoStd) (sampled : Bool) (spanTraceID : String)
    (hw : Discoverer) (ip : String) : Except String String :=
  generateHookTemplate (autoHook h std sampled spanTraceID hw ip)

/-- Handler.customScript of auto.go (lines 170-189): a non-empty chain URL
takes priority and must parse with scheme http or https; otherwise a
non-empty literal script is rendered; otherwise the defensive error. -/
def customScript (std : GoStd) (hw : Discoverer) (ip : String) : Except String String :=
  let mac := hw.getMAC (std.parseIP ip)
  if hw.ipxeURL mac ≠ "" then
    match std.urlParse (hw.ipxeURL mac) with
    | .error e => .error ("invalid custom chain URL: " ++ e)
    | .ok u =>
      if u.scheme ≠ "http" ∧ u.scheme ≠ "https" then
        .error ("invalid URL scheme: " ++ u.scheme)
      else
        generateCustomTemplate { chain := some u, script := "" }
  else if hw.ipxeScript mac ≠ "" then
    generateCustomTemplate { chain := none, script := hw.ipxeScript mac }
  else
    .error "no custom script or chain defined in the hardware data"

/-- Maps a script-producing result to the HTTP outcome serveBootScript
writes for it: an error is HTTP 500 with no body, a script is written as
the HTTP 200 body. -/
def renderResponse : Except String String → Response
  | .error _ => .internalError
  | .ok s => .ok s

/-- Handler.serveBootScript of auto.go (lines 89-136): rewrite the name to
custom.ipxe when custom data is found, then dispatch on the name; an
unknown name falls to the NotFound default branch of the switch. -/
def serveBootScript (h : Handler) (std : GoStd) (sampled : Bool) (spanTraceID : String)
    (name : String) (ip : String) (hw : Discoverer) : Response :=
  let name := if customScriptFound std (some hw) ip then "custom.ipxe" else name
  if name = "auto.ipxe" then
    renderResponse (defaultScript h std sampled spanTraceID hw ip)
  else if name = "custom.ipxe" then
    renderResponse (customScript std hw ip)
  else
    .notFound

/-- Handler.HandlerFunc of auto.go (lines 31-78): name guard, metrics,
peer-address split, IP parse (whose failure, a nil IP, is not checked),
hardware lookup, allow-netboot gate, then serveBootScript with
path.Base(r.URL.Path) and ip.String(). -/
def handlerFunc (h : Handler) (std : GoStd) (finder : Option String → Except String Discoverer)
    (sampled : Bool) (spanTraceID : String) (r : Request) : HandlerResult :=
  if pathBase r.urlPath ≠ "auto.ipxe" then
    { response := .notFound, lookupPerformed := false, metricsRecorded := false }
  else
    match std.splitHostPort r.remoteAddr with
    | .error _ => { response := .internalError, lookupPerformed := false, metricsRecorded := true }
    | .ok (host, _) =>
      let ip := std.parseIP host
      match finder ip with
      | .error _ => { response := .notFound, lookupPerformed := true, metricsRecorded := true }
      | .ok hw =>
        if !(hw.allowPXE (hw.getMAC ip)) then
          { response := .notFound, lookupPerformed := true, metricsRecorded := true }
        else
          { response := serveBootScript h std sampled spanTraceID (pathBase r.urlPath) (std.ipString ip) hw
            lookupPerformed := true
            metricsRecorded := true }

/-! Concrete instances used to evaluate the model on the spec's scenarios. -/

/-- A concrete handler configuration. -/
def exH : Handler :=
  { osieURL := "http://osie.example/current"
    extraKernelParams := ["tink_worker_image=example"]
    publicSyslogFQDN := "syslog.example"
    tinkServerTLS := false
    tinkServerGRPCAddr := "tink.example:42113" }

/-- A concrete model of the Go standard-library calls, pinned on the inputs
the scenarios use: 10.0.0.5 is a valid IP while any other host (such as
notanip) is not, mirroring that net.ParseIP returns nil there; the two
example chain URLs parse to their schemes and everything else fails to
parse; addresses without one of the two known host:port shapes fail to
split. -/
def exStd : GoStd :=
  { splitHostPort := fun s =>
      if s = "10.0.0.5:1234" then .ok ("10.0.0.5", "1234")
      else if s = "notanip:80" then .ok ("notanip", "80")
      else .error "missing port in address"
    parseIP := fun s => if s = "10.0.0.5" then some "10.0.0.5" else none
    ipString := fun oip =>
      match oip with
      | some s => s
      | none => "<nil>"
    urlParse := fun s =>
      if s = "ftp://example.com/boot.ipxe" then .ok { scheme := "ftp", str := s }
      else if s = "http://example.com/boot.ipxe" then .ok { scheme := "http", str := s }
      else .error "unparseable URL" }

/-- The MAC of the spec's scenario record. -/
def exMAC : MAC := { str := "aa:bb:cc:dd:ee:ff" }

/-- The spec's scenario hardware record: netboot allowed, no custom fields,
empty architecture, no instance. -/
def exHwPlain : Discoverer :=
  { getMAC := fun _ => exMAC
    allowPXE := fun _ => true
    hardwareArch := fun _ => ""
    facilityCode := "onprem"
    vlanID := fun _ => ""
    ipxeURL := fun _ => ""
    ipxeScript := fun _ => ""
    inst := none }

/-- Scenario record with a literal custom script body and no chain URL. -/
def exHwScript : Discoverer := { exHwPlain with ipxeScript := fun _ => "#!ipxe\nexit" }

/-- Scenario record with an ftp chain URL (disallowed scheme). -/
def exHwFtp : Discoverer := { exHwPlain with ipxeURL := fun _ => "ftp://example.com/boot.ipxe" }

/-- Scenario record with an http chain URL but netboot disallowed. -/
def exHwDenied : Discoverer :=
  { exHwPlain with
    allowPXE := fun _ => false
    ipxeURL := fun _ => "http://example.com/boot.ipxe" }

/-- A Finder.ByIP that always resolves to the plain scenario record. -/
def exFinderPlain : Option String → Except String Discoverer := fun _ => .ok exHwPlain

/-- A Finder.ByIP that always resolves to the netboot-denied record. -/
def exFinderDenied : Option String → Except String Discoverer := fun _ => .ok exHwDenied

/-- A Finder.ByIP that never finds a hardware record. -/
def exFinderMiss : Option String → Except String Discoverer := fun _ => .error "no hardware found"

/-! Helper lemmas shared by the claim theorems. -/

theorem renderResponse_ne_notFound (x : Except String String) :
    renderResponse x ≠ Response.notFound := by
  cases x <;> simp [renderResponse]

theorem customScriptFound_eq_true (std : GoStd) (hw : Discoverer) (ip : String)
    (hc : hw.ipxeURL (hw.getMAC (std.parseIP ip)) ≠ "" ∨
          hw.ipxeScript (hw.getMAC (std.parseIP ip)) ≠ "") :
    customScriptFound std (some hw) ip = true := by
  simpa [customScriptFound] using hc

theorem customScriptFound_eq_false (std : GoStd) (hw : Discoverer) (ip : String)
    (h1 : hw.ipxeURL (hw.getMAC (std.parseIP ip)) = "")
    (h2 : hw.ipxeScript (hw.getMAC (std.parseIP ip)) = "") :
    customScriptFound std (some hw) ip = false := by
  simp [customScriptFound, h1, h2]

/-- When custom data is found, serveBootScript rewrites any incoming name to
custom.ipxe and serves the custom flow. -/
theorem serveBootScript_found (h : Handler) (std : GoStd) (sampled : Bool) (tid : String)
    (name ip : String) (hw : Discoverer)
    (hf : customScriptFound std (some hw) ip = true) :
    serveBootScript h std sampled tid name ip hw = renderResponse (customScript std hw ip) := by
  simp [serveBootScript, hf]

/-- When no custom data is found and the name is auto.ipxe, serveBootScript
serves the default flow. -/
theorem serveBootScript_auto_not_found (h : Handler) (std : GoStd) (sampled : Bool)
    (tid : String) (ip : String) (hw : Discoverer)
    (hf : customScriptFound std (some hw) ip = false) :
    serveBootScript h std sampled tid "auto.ipxe" ip hw =
      renderResponse (defaultScript h std sampled tid hw ip) := by
  simp [serveBootScript, hf]

/-- The selection equation for an authorized auto.ipxe request: custom data
present means the custom flow, otherwise the default flow. -/
theorem serveBootScript_auto_eq (h : Handler) (std : GoStd) (sampled : Bool)
    (tid : String) (ip : String) (hw : Discoverer) :
    serveBootScript h std sampled tid "auto.ipxe" ip hw =
      if hw.ipxeURL (hw.getMAC (std.parseIP ip)) ≠ "" ∨
         hw.ipxeScript (hw.getMAC (std.parseIP ip)) ≠ "" then
        renderResponse (customScript std hw ip)
      else
        renderResponse (defaultScript h std sampled tid hw ip) := by
  by_cases hc : hw.ipxeURL (hw.getMAC (std.parseIP ip)) ≠ "" ∨
      hw.ipxeScript (hw.getMAC (std.parseIP ip)) ≠ ""
  · rw [if_pos hc, serveBootScript_found h std sampled tid _ ip hw
      (customScriptFound_eq_true std hw ip hc)]
  · push_neg at hc
    rw [if_neg (by simp [hc.1, hc.2]), serveBootScript_auto_not_found h std sampled tid ip hw
      (customScriptFound_eq_false std hw ip hc.1 hc.2)]

/-- serveBootScript never takes the NotFound default branch for the two
names that can reach it from HandlerFunc. -/
theorem serveBootScript_known_name_ne_notFound (h : Handler) (std : GoStd) (sampled : Bool)
    (tid : String) (name ip : String) (hw : Discoverer)
    (hn : name = "auto.ipxe" ∨ name = "custom.ipxe") :
    serveBootScript h std sampled tid name ip hw ≠ Response.notFound := by
  cases hf : customScriptFound std (some hw) ip
  · rcases hn with rfl | rfl
    · rw [serveBootScript_auto_not_found h std sampled tid ip hw hf]
      exact renderResponse_ne_notFound _
    · simpa [serveBootScript, hf] using renderResponse_ne_notFound (customScript std hw ip)
  · rw [serveBootScript_found h std sampled tid name ip hw hf]
    exact renderResponse_ne_notFound _

/-! The claims. -/

/-- Claim C4: for every request whose final path segment is not exactly
auto.ipxe, the response is 404 NotFound, no hardware lookup is performed
and no metrics are recorded. -/
theorem C4_wrong_name_404_no_lookup_no_metrics (h : Handler) (std : GoStd)
    (finder : Option String → Except String Discoverer) (sampled : Bool) (tid : String)
    (r : Request) (hname : pathBase r.urlPath ≠ "auto.ipxe") :
    handlerFunc h std finder sampled tid r =
      { response := .notFound, lookupPerformed := false, metricsRecorded := false } := by
  unfold handlerFunc
  rw [if_pos hname]

/-- Claim C4 witness: a request for /other.ipxe is answered 404 with no
lookup and no metrics. -/
theorem C4_wrong_name_404_no_lookup_no_metrics_witness :
    handlerFunc exH exStd exFinderPlain false ""
        { urlPath := "/other.ipxe", remoteAddr := "10.0.0.5:1234" } =
      { response := .notFound, lookupPerformed := false, metricsRecorded := false } :=
  C4_wrong_name_404_no_lookup_no_metrics exH exStd exFinderPlain false "" _ (by decide)

/-- Claim C1: for a request named auto.ipxe whose peer address splits, if
the hardware lookup errors, or the resolved record's allow-netboot flag for
the resolved MAC identity is false, the response is 404 NotFound — so no
script body is produced, whatever custom fields the record defines. -/
theorem C1_gate_failure_is_404 (h : Handler) (std : GoStd)
    (finder : Option String → Except String Discoverer) (sampled : Bool) (tid : String)
    (r : Request) (host port : String)
    (hname : pathBase r.urlPath = "auto.ipxe")
    (hsplit : std.splitHostPort r.remoteAddr = .ok (host, port))
    (hgate : (∃ e, finder (std.parseIP host) = .error e) ∨
             ∃ hw, finder (std.parseIP host) = .ok hw ∧
               hw.allowPXE (hw.getMAC (std.parseIP host)) = false) :
    (handlerFunc h std finder sampled tid r).response = Response.notFound := by
  rcases hgate with ⟨e, he⟩ | ⟨hw, hfind, hallow⟩
  · simp [handlerFunc, hname, hsplit, he]
  · simp [handlerFunc, hname, hsplit, hfind, hallow]

/-- Claim C1 witness: the netboot-denied record, which does define a custom
http chain URL, still gets a 404. -/
theorem C1_gate_failure_is_404_witness :
    (handlerFunc exH exStd exFinderDenied false ""
        { urlPath := "/auto.ipxe", remoteAddr := "10.0.0.5:1234" }).response =
      Response.notFound :=
  C1_gate_failure_is_404 exH exStd exFinderDenied false "" _ "10.0.0.5" "1234"
    (by decide) rfl (Or.inr ⟨exHwDenied, rfl, rfl⟩)

/-- Claim C2: for an authorized auto.ipxe request, the selector serves the
custom flow exactly when the record has a non-empty custom chain URL or a
non-empty custom script body for the resolved MAC identity, and the default
flow otherwise. -/
theorem C2_custom_iff_custom_field_nonempty (h : Handler) (std : GoStd) (sampled : Bool)
    (tid : String) (ip : String) (hw : Discoverer) :
    serveBootScript h std sampled tid "auto.ipxe" ip hw =
      if hw.ipxeURL (hw.getMAC (std.parseIP ip)) ≠ "" ∨
         hw.ipxeScript (hw.getMAC (std.parseIP ip)) ≠ "" then
        renderResponse (customScript std hw ip)
      else
        renderResponse (defaultScript h std sampled tid hw ip) :=
  serveBootScript_auto_eq h std sampled tid ip hw

/-- Claim C10: HandlerFunc reaches serveBootScript only with the checked
name auto.ipxe (the response then being serveBootScript's), and for the two
names serveBootScript can then see — auto.ipxe, or custom.ipxe after the
rewrite — the switch's NotFound default branch is never taken. -/
theorem C10_default_branch_unreachable (h : Handler) (std : GoStd)
    (finder : Option String → Except String Discoverer) (sampled : Bool) (tid : String)
    (r : Request) (host port : String) (hw : Discoverer)
    (hname : pathBase r.urlPath = "auto.ipxe")
    (hsplit : std.splitHostPort r.remoteAddr = .ok (host, port))
    (hfind : finder (std.parseIP host) = .ok hw)
    (hallow : hw.allowPXE (hw.getMAC (std.parseIP host)) = true) :
    (handlerFunc h std finder sampled tid r).response =
      serveBootScript h std sampled tid "auto.ipxe" (std.ipString (std.parseIP host)) hw ∧
    ∀ name ip hw2, (name = "auto.ipxe" ∨ name = "custom.ipxe") →
      serveBootScript h std sampled tid name ip hw2 ≠ Response.notFound := by
  refine ⟨?_, ?_⟩
  · simp [handlerFunc, hname, hsplit, hfind, hallow]
  · intro name ip hw2 hn
    exact serveBootScript_known_name_ne_notFound h std sampled tid name ip hw2 hn

/-- Claim C10 witness: on the plain scenario request, the handler's
response is exactly serveBootScript's on auto.ipxe, and that is not 404. -/
theorem C10_default_branch_unreachable_witness :
    (handlerFunc exH exStd exFinderPlain false ""
        { urlPath := "/auto.ipxe", remoteAddr := "10.0.0.5:1234" }).response =
      serveBootScript exH exStd false "" "auto.ipxe" "10.0.0.5" exHwPlain ∧
    serveBootScript exH exStd false "" "auto.ipxe" "10.0.0.5" exHwPlain ≠
      Response.notFound := by
  have h := C10_default_branch_unreachable exH exStd exFinderPlain false ""
    { urlPath := "/auto.ipxe", remoteAddr := "10.0.0.5:1234" } "10.0.0.5" "1234" exHwPlain
    (by decide) rfl rfl rfl
  have hip : exStd.ipString (exStd.parseIP "10.0.0.5") = "10.0.0.5" := by decide
  rw [hip] at h
  exact ⟨h.1, h.2 "auto.ipxe" "10.0.0.5" exHwPlain (Or.inl rfl)⟩

/-- Claim C3: with a non-empty chain URL, the custom flow ignores the
literal script body (changing it does not change the result); a chain URL
that fails to parse makes the custom flow error and the auto.ipxe request
answer HTTP 500 with no script; and so does a parsed scheme other than
exactly http or https. -/
theorem C3_chain_priority_and_scheme_gate (h : Handler) (std : GoStd) (sampled : Bool)
    (tid : String) (ip : String) (hw : Discoverer)
    (hchain : hw.ipxeURL (hw.getMAC (std.parseIP ip)) ≠ "") :
    (∀ body, customScript std { hw with ipxeScript := fun _ => body } ip =
       customScript std hw ip) ∧
    (∀ e, std.urlParse (hw.ipxeURL (hw.getMAC (std.parseIP ip))) = .error e →
       customScript std hw ip = .error ("invalid custom chain URL: " ++ e) ∧
       serveBootScript h std sampled tid "auto.ipxe" ip hw = Response.internalError) ∧
    (∀ u, std.urlParse (hw.ipxeURL (hw.getMAC (std.parseIP ip))) = .ok u →
       u.scheme ≠ "http" → u.scheme ≠ "https" →
       customScript std hw ip = .error ("invalid URL scheme: " ++ u.scheme) ∧
       serveBootScript h std sampled tid "auto.ipxe" ip hw = Response.internalError) := by
  refine ⟨?_, ?_, ?_⟩
  · intro body
    simp [customScript, hchain]
  · intro e he
    have hcs : customScript std hw ip = .error ("invalid custom chain URL: " ++ e) := by
      simp [customScript, hchain, he]
    refine ⟨hcs, ?_⟩
    rw [serveBootScript_found h std sampled tid _ ip hw
      (customScriptFound_eq_true std hw ip (Or.inl hchain)), hcs]
    rfl
  · intro u hu h1 h2
    have hcs : customScript std hw ip = .error ("invalid URL scheme: " ++ u.scheme) := by
      simp [customScript, hchain, hu, h1, h2]
    refine ⟨hcs, ?_⟩
    rw [serveBootScript_found h std sampled tid _ ip hw
      (customScriptFound_eq_true std hw ip (Or.inl hchain)), hcs]
    rfl

/-- Claim C3 witness: the ftp chain URL makes the custom flow error on the
scheme and the auto.ipxe request answer HTTP 500. -/
theorem C3_chain_priority_and_scheme_gate_witness :
    customScript exStd exHwFtp "10.0.0.5" = .error "invalid URL scheme: ftp" ∧
    serveBootScript exH exStd false "" "auto.ipxe" "10.0.0.5" exHwFtp =
      Response.internalError := by
  have h := (C3_chain_priority_and_scheme_gate exH exStd false "" "10.0.0.5" exHwFtp
      (by decide)).2.2
    { scheme := "ftp", str := "ftp://example.com/boot.ipxe" } rfl (by decide) (by decide)
  exact ⟨h.1.trans (congrArg Except.error (by decide)), h.2⟩

/-- Claim C5: the Boot Decision Context built by defaultScript carries the
record's architecture when non-empty and x86_64 when empty, and its worker
identifier is the instance ID when a non-empty one exists, else the MAC
identity's string form. -/
theorem C5_arch_default_and_worker_id (h : Handler) (std : GoStd) (sampled : Bool)
    (tid : String) (hw : Discoverer) (ip : String) :
    ((hw.hardwareArch (hw.getMAC (std.parseIP ip)) = "" →
        (autoHook h std sampled tid hw ip).arch = "x86_64") ∧
     (hw.hardwareArch (hw.getMAC (std.parseIP ip)) ≠ "" →
        (autoHook h std sampled tid hw ip).arch =
          hw.hardwareArch (hw.getMAC (std.parseIP ip)))) ∧
    ((∀ i, hw.inst = some i → i.id ≠ "" →
        (autoHook h std sampled tid hw ip).workerID = i.id) ∧
     ((hw.inst = none ∨ ∃ i, hw.inst = some i ∧ i.id = "") →
        (autoHook h std sampled tid hw ip).workerID =
          (hw.getMAC (std.parseIP ip)).str)) := by
  refine ⟨⟨?_, ?_⟩, ?_, ?_⟩
  · intro ha
    simp [autoHook, ha]
  · intro ha
    simp [autoHook, ha]
  · intro i hi hid
    simp [autoHook, hi, hid]
  · rintro (hi | ⟨i, hi, hid⟩)
    · simp [autoHook, hi]
    · simp [autoHook, hi, hid]

/-- Claim C5 witness: the spec scenario — architecture empty, no instance —
renders with architecture x86_64 and worker identifier aa:bb:cc:dd:ee:ff. -/
theorem C5_arch_default_and_worker_id_witness :
    (autoHook exH exStd false "" exHwPlain "10.0.0.5").arch = "x86_64" ∧
    (autoHook exH exStd false "" exHwPlain "10.0.0.5").workerID = "aa:bb:cc:dd:ee:ff" := by
  have h := C5_arch_default_and_worker_id exH exStd false "" exHwPlain "10.0.0.5"
  exact ⟨h.1.1 (by decide), (h.2.2 (Or.inl rfl)).trans (by decide)⟩

/-- Claim C6: with no chain URL and a non-empty custom script body, the
custom flow returns the stored script body verbatim, and the auto.ipxe
request is answered with exactly that text. -/
theorem C6_literal_script_verbatim (h : Handler) (std : GoStd) (sampled : Bool)
    (tid : String) (ip : String) (hw : Discoverer)
    (hchain : hw.ipxeURL (hw.getMAC (std.parseIP ip)) = "")
    (hscript : hw.ipxeScript (hw.getMAC (std.parseIP ip)) ≠ "") :
    customScript std hw ip = .ok (hw.ipxeScript (hw.getMAC (std.parseIP ip))) ∧
    serveBootScript h std sampled tid "auto.ipxe" ip hw =
      Response.ok (hw.ipxeScript (hw.getMAC (std.parseIP ip))) := by
  have hcs : customScript std hw ip = .ok (hw.ipxeScript (hw.getMAC (std.parseIP ip))) := by
    simp [customScript, hchain, hscript, generateCustomTemplate]
  refine ⟨hcs, ?_⟩
  rw [serveBootScript_found h std sampled tid _ ip hw
    (customScriptFound_eq_true std hw ip (Or.inr hscript)), hcs]
  rfl

/-- Claim C6 witness: the spec scenario record with custom script body
exactly the two-line exit script is served verbatim. -/
theorem C6_literal_script_verbatim_witness :
    customScript exStd exHwScript "10.0.0.5" = .ok "#!ipxe\nexit" ∧
    serveBootScript exH exStd false "" "auto.ipxe" "10.0.0.5" exHwScript =
      Response.ok "#!ipxe\nexit" := by
  have h := C6_literal_script_verbatim exH exStd false "" "10.0.0.5" exHwScript
    (by decide) (by decide)
  exact ⟨h.1.trans (congrArg Except.ok (by decide)),
    h.2.trans (congrArg Response.ok (by decide))⟩

/-- Claim C7 counterexample: the claim says an unparseable host fails with
InternalError before the hardware lookup; but on a request whose peer
address splits to the host notanip, which does not parse as an IP (ParseIP
gives nil), the code performs the lookup anyway — the response here is 404
from the failed lookup, not 500, and lookupPerformed is true. -/
theorem C7_unparseable_ip_counterexample :
    exStd.parseIP "notanip" = none ∧
    (handlerFunc exH exStd exFinderMiss false ""
        { urlPath := "/auto.ipxe", remoteAddr := "notanip:80" }).response ≠
      Response.internalError ∧
    (handlerFunc exH exStd exFinderMiss false ""
        { urlPath := "/auto.ipxe", remoteAddr := "notanip:80" }).lookupPerformed = true := by
  refine ⟨by decide, ?_, ?_⟩ <;> decide

/-- Claim C7 amended: only a peer address that cannot be split into host
and port fails with InternalError before the lookup; an unparseable host is
not detected — the code goes on to perform the hardware lookup (with a nil
IP) whatever the IP parse outcome. -/
theorem C7_split_failure_500_before_lookup (h : Handler) (std : GoStd)
    (finder : Option String → Except String Discoverer) (sampled : Bool) (tid : String)
    (r : Request) (hname : pathBase r.urlPath = "auto.ipxe") :
    (∀ e, std.splitHostPort r.remoteAddr = .error e →
       handlerFunc h std finder sampled tid r =
         { response := .internalError, lookupPerformed := false, metricsRecorded := true }) ∧
    (∀ host port, std.splitHostPort r.remoteAddr = .ok (host, port) →
       (handlerFunc h std finder sampled tid r).lookupPerformed = true) := by
  refine ⟨?_, ?_⟩
  · intro e he
    simp [handlerFunc, hname, he]
  · intro host port hsp
    cases hfind : finder (std.parseIP host) with
    | error e => simp [handlerFunc, hname, hsp, hfind]
    | ok hw =>
      cases hallow : hw.allowPXE (hw.getMAC (std.parseIP host)) <;>
        simp [handlerFunc, hname, hsp, hfind, hallow]

/-- Claim C7 amended witness: an unsplittable peer address gets HTTP 500
with no lookup, and the notanip address (split ok, IP parse fails) still
has the lookup performed. -/
theorem C7_split_failure_500_before_lookup_witness :
    handlerFunc exH exStd exFinderMiss false ""
        { urlPath := "/auto.ipxe", remoteAddr := "garbage" } =
      { response := .internalError, lookupPerformed := false, metricsRecorded := true } ∧
    (handlerFunc exH exStd exFinderMiss false ""
        { urlPath := "/auto.ipxe", remoteAddr := "notanip:80" }).lookupPerformed = true := by
  refine ⟨?_, ?_⟩
  · exact (C7_split_failure_500_before_lookup exH exStd exFinderMiss false ""
      { urlPath := "/auto.ipxe", remoteAddr := "garbage" } (by decide)).1
      "missing port in address" rfl
  · exact (C7_split_failure_500_before_lookup exH exStd exFinderMiss false ""
      { urlPath := "/auto.ipxe", remoteAddr := "notanip:80" } (by decide)).2
      "notanip" "80" rfl

/-- Claim C8: if the custom flow runs with both custom fields empty, it
fails with the defensive error, and a request dispatched to the custom
branch is answered HTTP 500 with no script. -/
theorem C8_defensive_fallback_500 (h : Handler) (std : GoStd) (sampled : Bool)
    (tid : String) (ip : String) (hw : Discoverer)
    (h1 : hw.ipxeURL (hw.getMAC (std.parseIP ip)) = "")
    (h2 : hw.ipxeScript (hw.getMAC (std.parseIP ip)) = "") :
    customScript std hw ip = .error "no custom script or chain defined in the hardware data" ∧
    serveBootScript h std sampled tid "custom.ipxe" ip hw = Response.internalError := by
  have hcs : customScript std hw ip =
      .error "no custom script or chain defined in the hardware data" := by
    simp [customScript, h1, h2]
  refine ⟨hcs, ?_⟩
  have hf := customScriptFound_eq_false std hw ip h1 h2
  simp [serveBootScript, hf, hcs, renderResponse]

/-- Claim C8 witness: the plain record (no custom fields) makes the custom
flow fail with the defensive error and the custom.ipxe dispatch answer 500. -/
theorem C8_defensive_fallback_500_witness :
    customScript exStd exHwPlain "10.0.0.5" =
      .error "no custom script or chain defined in the hardware data" ∧
    serveBootScript exH exStd false "" "custom.ipxe" "10.0.0.5" exHwPlain =
      Response.internalError :=
  C8_defensive_fallback_500 exH exStd false "" "10.0.0.5" exHwPlain (by decide) (by decide)

/-- Claim C9: rendering is deterministic — rendering the same Boot Decision
Context (and the same Custom context) against its fixed template a second
time produces byte-identical output.  In this embedding the renderer is a
pure function of the context, so two renders of equal contexts coincide. -/
theorem C9_render_deterministic (a b : Hook) (c d : Custom) (hab : a = b) (hcd : c = d) :
    generateHookTemplate a = generateHookTemplate b ∧
    generateCustomTemplate c = generateCustomTemplate d := by
  rw [hab, hcd]
  exact ⟨rfl, rfl⟩

/-- Claim C9 witness: two renders of the scenario's Boot Decision Context
and of the scenario's custom context are byte-identical. -/
theorem C9_render_deterministic_witness :
    generateHookTemplate (autoHook exH exStd false "" exHwPlain "10.0.0.5") =
      generateHookTemplate (autoHook exH exStd false "" exHwPlain "10.0.0.5") ∧
    generateCustomTemplate { chain := none, script := "#!ipxe\nexit" } =
      generateCustomTemplate { chain := none, script := "#!ipxe\nexit" } :=
  C9_render_deterministic _ _ _ _ rfl rfl

end Boots
